import Mathlib

/-!
A verification development for the EmoChild state engine and its
storage service.

The storage service (`src/services/storageService.ts`) is embedded as pure
functions over an explicit store state.  Runtime values that flow through
`JSON.parse` / `JSON.stringify` are represented by a `Json` inductive: a
stored string that parses is represented by its parse result, a stored
string that fails to parse by a `bad` marker.  JSON numbers are modelled
as integers (all numbers the service writes are integers, and no claim
depends on fractional corrupt values).  The keys used by the service are
the six fixed constants of `STORAGE_KEYS`, so the store is modelled as a
record with one slot per key; the safety-score, micro-index and
text-color keys hold raw strings (they are read back with `parseInt` /
directly, not with `JSON.parse`).
-/

namespace EmoChild

/-- Runtime JSON-like values (the result of `JSON.parse`). -/
inductive Json where
  | null
  | bool (b : Bool)
  | num (n : Int)
  | str (s : String)
  | arr (xs : List Json)
  | obj (fields : List (String × Json))

/-- First-match field lookup on a JS object (parsed objects have unique keys). -/
def lookupField : List (String × Json) → String → Option Json
  | [], _ => none
  | (k, v) :: fs, key => if k = key then some v else lookupField fs key

/-- JS property assignment `o[key] = v`: overwrite in place if the key
exists, otherwise append (insertion order). -/
def setField : List (String × Json) → String → Json → List (String × Json)
  | [], key, v => [(key, v)]
  | (k, w) :: fs, key, v =>
      if k = key then (key, v) :: fs else (k, w) :: setField fs key v

/-- JS truthiness of a property read result (`none` models `undefined`). -/
def isTruthy : Option Json → Bool
  | none => false
  | some .null => false
  | some (.bool b) => b
  | some (.num n) => n != 0
  | some (.str s) => s ≠ ""
  | some (.arr _) => true
  | some (.obj _) => true

/-- JS property read `o.key`.  `none` models a thrown `TypeError`
(reading a property of `null`); reads on primitives and arrays yield
`undefined` (`some none`) for the non-builtin keys the service uses. -/
def jsGet : Json → String → Option (Option Json)
  | .null, _ => none
  | .obj fs, key => some (lookupField fs key)
  | _, _ => some none

/-- `typeof x === 'number'` for a property read result. -/
def typeofNumber : Option Json → Bool
  | some (.num _) => true
  | _ => false

/-- `typeof x === 'string'` for a property read result. -/
def typeofString : Option Json → Bool
  | some (.str _) => true
  | _ => false

/-- `typeof x === 'boolean'` for a property read result. -/
def typeofBoolean : Option Json → Bool
  | some (.bool _) => true
  | _ => false

/-! ## Typed data model (`src/types/index.ts`) -/

/-- Action taken on an emotion (`type EmotionAction`). -/
inductive EmotionAction where
  | expressed
  | suppressed
deriving DecidableEq

/-- The fixed 8-value pastel palette (`type PastelColor`). -/
inductive PastelColor where
  | mint | blue | lavender | peach | pink | yellow | red | orange
deriving DecidableEq

/-- A log text color: a palette value or the default `"white"`
(`textColor?: PastelColor | 'white'`). -/
inductive TextColor where
  | white
  | pastel (c : PastelColor)
deriving DecidableEq

/-- Quick-emotion labels (`type QuickEmotion`). -/
inductive QuickEmotion where
  | stressed | anxious | calm | excited | sad
  | angry | confused | grateful | curious | scared
deriving DecidableEq

/-- One journaling event (`interface EmotionLog`); the two optional
fields are `Option`s, `none` modelling an absent field. -/
structure EmotionLog where
  id : String
  text : String
  action : EmotionAction
  timestamp : Int
  textColor : Option TextColor
  quickEmotion : Option QuickEmotion
deriving DecidableEq

/-- Creature animation states. -/
inductive CreatureAnimation where
  | idle | grow | curl | celebrate
deriving DecidableEq

/-- Derived creature state (`interface CreatureState`). -/
structure CreatureState where
  brightness : Int
  size : Int
  animation : CreatureAnimation
deriving DecidableEq

/-- Creature customization (`interface CreatureCustomization`). -/
structure CreatureCustomization where
  name : String
  color : PastelColor
  hasBow : Bool
deriving DecidableEq

def EmotionAction.toStr : EmotionAction → String
  | .expressed => "expressed"
  | .suppressed => "suppressed"

def PastelColor.toStr : PastelColor → String
  | .mint => "mint"
  | .blue => "blue"
  | .lavender => "lavender"
  | .peach => "peach"
  | .pink => "pink"
  | .yellow => "yellow"
  | .red => "red"
  | .orange => "orange"

def TextColor.toStr : TextColor → String
  | .white => "white"
  | .pastel c => c.toStr

def QuickEmotion.toStr : QuickEmotion → String
  | .stressed => "stressed"
  | .anxious => "anxious"
  | .calm => "calm"
  | .excited => "excited"
  | .sad => "sad"
  | .angry => "angry"
  | .confused => "confused"
  | .grateful => "grateful"
  | .curious => "curious"
  | .scared => "scared"

def CreatureAnimation.toStr : CreatureAnimation → String
  | .idle => "idle"
  | .grow => "grow"
  | .curl => "curl"
  | .celebrate => "celebrate"

/-- The JSON image of an `EmotionLog` under `JSON.stringify`: required
fields in declaration order, optional fields omitted when absent. -/
def encodeLog (l : EmotionLog) : Json :=
  .obj ([("id", .str l.id), ("text", .str l.text),
         ("action", .str l.action.toStr), ("timestamp", .num l.timestamp)]
    ++ (match l.textColor with
        | none => []
        | some c => [("textColor", .str c.toStr)])
    ++ (match l.quickEmotion with
        | none => []
        | some q => [("quickEmotion", .str q.toStr)]))

/-- The JSON image of a `CreatureState` under `JSON.stringify`. -/
def encodeCreatureState (c : CreatureState) : Json :=
  .obj [("brightness", .num c.brightness), ("size", .num c.size),
        ("animation", .str c.animation.toStr)]

/-- The JSON image of a `CreatureCustomization` under `JSON.stringify`. -/
def encodeCustomization (c : CreatureCustomization) : Json :=
  .obj [("name", .str c.name), ("color", .str c.color.toStr),
        ("hasBow", .bool c.hasBow)]

/-! ## `parseInt(s, 10)` and `Number.prototype.toString`

`loadSafetyScore` / `loadMicroSentenceIndex` read the raw stored string
back with `parseInt(s, 10)`: leading whitespace is skipped, an optional
sign is consumed, and the longest prefix of decimal digits is converted;
if there is no digit the result is `NaN` (modelled as `none`).
`score.toString()` on an integer produces its plain decimal
representation (modelled for the integer range the app uses; JS switches
to exponential notation only beyond `1e21`). -/

/-- JS string whitespace as far as `parseInt` skips it (the common cases). -/
def isJsSpace (c : Char) : Bool :=
  c = ' ' || c = '\t' || c = '\n' || c = '\r'

/-- `String.prototype.trim`: strip whitespace from both ends. -/
def jsTrim (s : String) : String :=
  ⟨((s.data.dropWhile isJsSpace).reverse.dropWhile isJsSpace).reverse⟩

/-- Value of a list of decimal digit characters, most significant first. -/
def digitsToNat (ds : List Char) : Nat :=
  ds.foldl (fun a c => 10 * a + (c.toNat - 48)) 0

/-- Longest decimal-digit prefix, `none` when there is none (`NaN`). -/
def parseDigits (cs : List Char) : Option Nat :=
  let ds := cs.takeWhile Char.isDigit
  if ds = [] then none else some (digitsToNat ds)

/-- Optional sign followed by digits. -/
def parseSigned (cs : List Char) : Option Int :=
  match cs with
  | [] => none
  | c :: rest =>
      if c = '-' then (parseDigits rest).map (fun n => -(n : Int))
      else if c = '+' then (parseDigits rest).map (fun n => (n : Int))
      else (parseDigits (c :: rest)).map (fun n => (n : Int))

/-- `parseInt(s, 10)`; `none` models `NaN`. -/
def parseIntTS (s : String) : Option Int :=
  parseSigned (s.data.dropWhile isJsSpace)

/-- The decimal digit character for `k` (meaningful for `k < 10`). -/
def digitChar (k : Nat) : Char := Char.ofNat (48 + k)

/-- Decimal digit characters of `n`, most significant first. -/
def natDigits (n : Nat) : List Char :=
  if _ : n < 10 then [digitChar n]
  else natDigits (n / 10) ++ [digitChar (n % 10)]
decreasing_by exact Nat.div_lt_self (by omega) (by omega)

/-- Plain decimal representation of a natural number. -/
def natToStr (n : Nat) : String := ⟨natDigits n⟩

/-- `i.toString()` for an integer `i`. -/
def intToStr (i : Int) : String :=
  if i < 0 then "-" ++ natToStr i.natAbs else natToStr i.natAbs

/-! ## Storage service (`storageService.ts`)

Each function first probes the store (`isLocalStorageAvailable`), then
reads or writes its fixed key inside `try/catch`.  The environment of a
single call records the outcome of the probe and, for writes, whether
`localStorage.setItem` throws (`QuotaExceededError` or anything else).
`lastError` is the module-level error variable. -/

/-- Content stored under a `JSON`-backed key: the parse result of the
stored string, or a marker for content on which `JSON.parse` throws. -/
inductive JsonContent where
  | ok (j : Json)
  | bad

/-- The store, one slot per `STORAGE_KEYS` constant (`none` = key
absent), plus the module-level `lastError`. -/
structure ServiceState where
  logsSlot : Option JsonContent
  creatureSlot : Option JsonContent
  customizationSlot : Option JsonContent
  safetySlot : Option String
  microSlot : Option String
  textPrefSlot : Option String
  lastError : Option String

/-- A store with every key absent and no recorded error. -/
def emptyServiceState : ServiceState :=
  ⟨none, none, none, none, none, none, none⟩

/-- What `localStorage.setItem` throws on the actual write. -/
inductive JsErr where
  | quotaExceeded
  | generic
deriving DecidableEq

/-- Outcome of the environment for one storage-service call. -/
structure StorageEnv where
  /-- result of the `isLocalStorageAvailable` probe -/
  probeOk : Bool
  /-- whether the actual `setItem` throws, and what -/
  writeErr : Option JsErr

/-- `interface StorageResult`. -/
structure StorageResult where
  success : Bool
  error : Option String
deriving DecidableEq

def unavailableMsg : String :=
  "Storage is not available - data won\x27t persist between sessions"

def storageFullMsg : String := "Storage full - some logs may not save"

def saveDataFailedMsg : String := "Failed to save data - changes may not persist"

/-- `getLastError()`. -/
def getLastError (st : ServiceState) : Option String := st.lastError

/-- `saveLogs`, generic over the runtime array it is given (`addLog`
passes encoded `EmotionLog`s; re-saving a loaded collection passes the
loaded objects).  Its catch branch distinguishes `QuotaExceededError`. -/
def saveLogs (env : StorageEnv) (logs : List Json) (st : ServiceState) :
    StorageResult × ServiceState :=
  if !env.probeOk then
    (⟨false, some unavailableMsg⟩, { st with lastError := some unavailableMsg })
  else
    match env.writeErr with
    | none =>
        (⟨true, none⟩, { st with logsSlot := some (.ok (.arr logs)), lastError := none })
    | some .quotaExceeded =>
        (⟨false, some storageFullMsg⟩, { st with lastError := some storageFullMsg })
    | some .generic =>
        (⟨false, some saveDataFailedMsg⟩, { st with lastError := some saveDataFailedMsg })

/-- The migration step of `loadLogs` on one loaded element:
`if (!log.textColor) log.textColor = 'white'`.  On an object this reads
and possibly sets the field; on `null` the read throws; on a primitive
the assignment throws (strict mode); on an array the assignment attaches
a property that is invisible to `JSON.stringify`, leaving the JSON view
unchanged.  `none` models a thrown `TypeError`. -/
def migrateLogJson : Json → Option Json
  | .obj fs =>
      if isTruthy (lookupField fs "textColor") then some (.obj fs)
      else some (.obj (setField fs "textColor" (.str "white")))
  | .arr xs => some (.arr xs)
  | _ => none

/-- `loadLogs`: probe, read, `JSON.parse`, `Array.isArray` check, then
the migration map; any thrown error yields `[]`. -/
def loadLogs (env : StorageEnv) (st : ServiceState) : List Json :=
  if !env.probeOk then []
  else
    match st.logsSlot with
    | none => []
    | some .bad => []
    | some (.ok (.arr xs)) => (xs.mapM migrateLogJson).getD []
    | some (.ok _) => []

/-- `saveCreatureState`; its catch branch sets a single generic message. -/
def saveCreatureState (env : StorageEnv) (state : CreatureState) (st : ServiceState) :
    StorageResult × ServiceState :=
  if !env.probeOk then
    (⟨false, some unavailableMsg⟩, { st with lastError := some unavailableMsg })
  else
    match env.writeErr with
    | none =>
        (⟨true, none⟩,
         { st with creatureSlot := some (.ok (encodeCreatureState state)), lastError := none })
    | some _ =>
        (⟨false, some "Failed to save creature state"⟩,
         { st with lastError := some "Failed to save creature state" })

/-- `loadCreatureState`: validates `typeof state.brightness` and
`typeof state.size` are `'number'`, else returns `null`; a throw
(e.g. reading a property of parsed `null`) also yields `null`. -/
def loadCreatureState (env : StorageEnv) (st : ServiceState) : Option Json :=
  if !env.probeOk then none
  else
    match st.creatureSlot with
    | none => none
    | some .bad => none
    | some (.ok j) =>
        match jsGet j "brightness", jsGet j "size" with
        | some b, some s => if typeofNumber b && typeofNumber s then some j else none
        | _, _ => none

/-- `saveSafetyScore`: stores `score.toString()`. -/
def saveSafetyScore (env : StorageEnv) (score : Int) (st : ServiceState) :
    StorageResult × ServiceState :=
  if !env.probeOk then
    (⟨false, some unavailableMsg⟩, { st with lastError := some unavailableMsg })
  else
    match env.writeErr with
    | none =>
        (⟨true, none⟩, { st with safetySlot := some (intToStr score), lastError := none })
    | some _ =>
        (⟨false, some "Failed to save safety score"⟩,
         { st with lastError := some "Failed to save safety score" })

/-- `loadSafetyScore`: missing or falsy content gives `0`; otherwise
`parseInt(serialized, 10)`, with `NaN` mapped to `0`. -/
def loadSafetyScore (env : StorageEnv) (st : ServiceState) : Int :=
  if !env.probeOk then 0
  else
    match st.safetySlot with
    | none => 0
    | some s =>
        if s = "" then 0
        else
          match parseIntTS s with
          | none => 0
          | some n => n

/-- `saveCustomization`; its catch branch sets a single generic message. -/
def saveCustomization (env : StorageEnv) (c : CreatureCustomization) (st : ServiceState) :
    StorageResult × ServiceState :=
  if !env.probeOk then
    (⟨false, some unavailableMsg⟩, { st with lastError := some unavailableMsg })
  else
    match env.writeErr with
    | none =>
        (⟨true, none⟩,
         { st with customizationSlot := some (.ok (encodeCustomization c)), lastError := none })
    | some _ =>
        (⟨false, some "Failed to save customization"⟩,
         { st with lastError := some "Failed to save customization" })

/-- `loadCustomization`: validates `typeof name/color/hasBow`. -/
def loadCustomization (env : StorageEnv) (st : ServiceState) : Option Json :=
  if !env.probeOk then none
  else
    match st.customizationSlot with
    | none => none
    | some .bad => none
    | some (.ok j) =>
        match jsGet j "name", jsGet j "color", jsGet j "hasBow" with
        | some n, some c, some b =>
            if typeofString n && typeofString c && typeofBoolean b then some j else none
        | _, _, _ => none

/-- `saveMicroSentenceIndex`: stores `index.toString()`. -/
def saveMicroSentenceIndex (env : StorageEnv) (index : Int) (st : ServiceState) :
    StorageResult × ServiceState :=
  if !env.probeOk then
    (⟨false, some unavailableMsg⟩, { st with lastError := some unavailableMsg })
  else
    match env.writeErr with
    | none =>
        (⟨true, none⟩, { st with microSlot := some (intToStr index), lastError := none })
    | some _ =>
        (⟨false, some "Failed to save micro-sentence index"⟩,
         { st with lastError := some "Failed to save micro-sentence index" })

/-- `loadMicroSentenceIndex`. -/
def loadMicroSentenceIndex (env : StorageEnv) (st : ServiceState) : Int :=
  if !env.probeOk then 0
  else
    match st.microSlot with
    | none => 0
    | some s =>
        if s = "" then 0
        else
          match parseIntTS s with
          | none => 0
          | some n => n

/-- `saveTextColorPreference`: stores the color string as-is. -/
def saveTextColorPreference (env : StorageEnv) (color : String) (st : ServiceState) :
    StorageResult × ServiceState :=
  if !env.probeOk then
    (⟨false, some unavailableMsg⟩, { st with lastError := some unavailableMsg })
  else
    match env.writeErr with
    | none =>
        (⟨true, none⟩, { st with textPrefSlot := some color, lastError := none })
    | some _ =>
        (⟨false, some "Failed to save text color preference"⟩,
         { st with lastError := some "Failed to save text color preference" })

/-- `loadTextColorPreference`: defaults to `"white"` when absent or falsy. -/
def loadTextColorPreference (env : StorageEnv) (st : ServiceState) : String :=
  if !env.probeOk then "white"
  else
    match st.textPrefSlot with
    | none => "white"
    | some c => if c = "" then "white" else c

/-- One write operation of the storage service together with its argument. -/
inductive SaveOp where
  | logs (xs : List Json)
  | creature (v : CreatureState)
  | safety (score : Int)
  | customization (v : CreatureCustomization)
  | microIndex (i : Int)
  | textColorPref (c : String)

/-- Dispatch a write operation to its storage-service function. -/
def runSave (op : SaveOp) (env : StorageEnv) (st : ServiceState) :
    StorageResult × ServiceState :=
  match op with
  | .logs xs => saveLogs env xs st
  | .creature v => saveCreatureState env v st
  | .safety s => saveSafetyScore env s st
  | .customization v => saveCustomization env v st
  | .microIndex i => saveMicroSentenceIndex env i st
  | .textColorPref c => saveTextColorPreference env c st

/-- Whether a `SaveOp` is the logs write (the only one whose catch
branch distinguishes `QuotaExceededError`). -/
def SaveOp.isLogs : SaveOp → Bool
  | .logs _ => true
  | _ => false

/-- The per-entity generic failure message of a write operation. -/
def SaveOp.genericMsg : SaveOp → String
  | .logs _ => saveDataFailedMsg
  | .creature _ => "Failed to save creature state"
  | .safety _ => "Failed to save safety score"
  | .customization _ => "Failed to save customization"
  | .microIndex _ => "Failed to save micro-sentence index"
  | .textColorPref _ => "Failed to save text color preference"

/-! ## Micro-sentences (`microSentences.ts`)

JS array indexing with an out-of-range (or negative) index yields
`undefined`, modelled as `none`; the JS `%` operator is the truncated
remainder (`Int.tmod`), whose sign follows the dividend. -/

def MICRO_SENTENCES : List String :=
  ["Your vulnerability is rewarded.",
   "When you feel, I grow.",
   "I saw that feeling.",
   "Your emotions are not a burden.",
   "Every feeling you name becomes a star.",
   "You were gentle with your truth today.",
   "Thank you for letting that feeling breathe.",
   "Your honesty makes my little light brighter.",
   "That emotion was safe with you today.",
   "You chose expression, and I grew stronger."]

/-- JS array read `l[i]`: `undefined` outside `0 ≤ i < l.length`. -/
def jsIndex (l : List String) (i : Int) : Option String :=
  if 0 ≤ i then l.get? i.toNat else none

/-- `getNextMicroSentence`: indexes the array directly with
`currentIndex` (no wrapping), and computes
`nextIndex = (currentIndex + 1) % MICRO_SENTENCES.length`. -/
def getNextMicroSentence (currentIndex : Int) : Option String × Int :=
  (jsIndex MICRO_SENTENCES currentIndex,
   (currentIndex + 1).tmod (MICRO_SENTENCES.length : Int))

/-- `getMicroSentenceByIndex`: wraps the index with `%` before reading. -/
def getMicroSentenceByIndex (index : Int) : Option String :=
  jsIndex MICRO_SENTENCES (index.tmod (MICRO_SENTENCES.length : Int))

/-! ## State engine

Modelled from the spec: the State Engine (`EmotionContext`) is not under
`src/` — only its tests and callers are — so `addLog` and the Derivation
Rules are embedded from §4.3/§4.4 of the spec.  The brightness/size step
of an event is a parameter, since the invariant is claimed to hold
regardless of the magnitude of any single event's step. -/

/-- Modelled from the spec: clamping of brightness/size to `[0,100]`. -/
def clamp100 (x : Int) : Int := max 0 (min 100 x)

/-- Modelled from the spec: the in-memory snapshot slices that `addLog`
touches. -/
structure AppState where
  logs : List EmotionLog
  creatureState : CreatureState
  safetyScore : Int

/-- Modelled from the spec: the documented default creature state
(`{brightness: 50, size: 50, animation: idle}`). -/
def initialCreatureState : CreatureState := ⟨50, 50, .idle⟩

/-- Modelled from the spec: the fresh-session snapshot. -/
def initialAppState : AppState := ⟨[], initialCreatureState, 0⟩

/-- Modelled from the spec (§4.3 Derivation Rules): `expressed` raises
brightness and size by the step, clamped, selecting `celebrate` when the
resulting brightness reaches 100 and `grow` otherwise; `suppressed`
lowers them by the step, clamped, selecting `curl`. -/
def applyDerivation (step : Int) (action : EmotionAction) (c : CreatureState) :
    CreatureState :=
  match action with
  | .expressed =>
      let b := clamp100 (c.brightness + step)
      { brightness := b, size := clamp100 (c.size + step),
        animation := if b = 100 then .celebrate else .grow }
  | .suppressed =>
      { brightness := clamp100 (c.brightness - step), size := clamp100 (c.size - step),
        animation := .curl }

/-- Modelled from the spec (§4.3): safety-score delta of an event. -/
def scoreDelta : EmotionAction → Int
  | .expressed => 1
  | .suppressed => 0

/-- Modelled from the spec (§7): the validation failure of `addLog`. -/
structure ValidationError where
  message : String

/-- Modelled from the spec (§4.4): `addLog` rejects text that is empty
or over 100 characters after trimming; otherwise it appends a freshly
built log (id and timestamp supplied by the caller's environment) and
applies the Derivation Rule to creature state and safety score. -/
def addLog (step : Int) (newId : String) (now : Int) (st : AppState)
    (text : String) (action : EmotionAction)
    (textColor : Option TextColor) (quickEmotion : Option QuickEmotion) :
    Except ValidationError AppState :=
  let t := jsTrim text
  if t.length = 0 ∨ 100 < t.length then
    .error ⟨"Text must be between 1 and 100 characters"⟩
  else
    .ok { logs := st.logs ++ [⟨newId, text, action, now, textColor, quickEmotion⟩],
          creatureState := applyDerivation step action st.creatureState,
          safetyScore := st.safetyScore + scoreDelta action }

/-- One `addLog` call together with the environment it draws on. -/
structure LogRequest where
  step : Int
  newId : String
  now : Int
  text : String
  action : EmotionAction
  textColor : Option TextColor
  quickEmotion : Option QuickEmotion

/-- Modelled from the spec (§7): a rejected `addLog` is never partially
applied, so a failing call leaves the snapshot unchanged. -/
def engineStep (st : AppState) (r : LogRequest) : AppState :=
  match addLog r.step r.newId r.now st r.text r.action r.textColor r.quickEmotion with
  | .ok st' => st'
  | .error _ => st

/-- A whole session: a sequence of `addLog` calls. -/
def runEngine (st : AppState) (rs : List LogRequest) : AppState :=
  rs.foldl engineStep st

/-- The claimed creature-state invariant. -/
def creatureInv (c : CreatureState) : Prop :=
  0 ≤ c.brightness ∧ c.brightness ≤ 100 ∧ 0 ≤ c.size ∧ c.size ≤ 100

instance : DecidablePred creatureInv := fun c => by
  unfold creatureInv
  infer_instance

/-! ## Supporting lemmas for `parseInt` / `toString` -/

theorem digitChar_toNat : ∀ k < 10, (digitChar k).toNat = 48 + k := by decide

theorem digitChar_props :
    ∀ k < 10, (digitChar k).isDigit = true ∧ isJsSpace (digitChar k) = false ∧
      digitChar k ≠ '-' ∧ digitChar k ≠ '+' := by decide

theorem natDigits_mem (n : Nat) :
    ∀ c ∈ natDigits n, ∃ k, k < 10 ∧ c = digitChar k := by
  induction n using Nat.strong_induction_on with
  | _ n ih =>
    rw [natDigits]
    split
    · rename_i h
      intro c hc
      simp only [List.mem_singleton] at hc
      exact ⟨n, h, hc⟩
    · rename_i h
      intro c hc
      rcases List.mem_append.1 hc with h1 | h2
      · exact ih (n / 10) (Nat.div_lt_self (by omega) (by omega)) c h1
      · simp only [List.mem_singleton] at h2
        exact ⟨n % 10, Nat.mod_lt _ (by omega), h2⟩

theorem natDigits_ne_nil (n : Nat) : natDigits n ≠ [] := by
  rw [natDigits]
  split
  · simp
  · simp

theorem digitsToNat_append (xs : List Char) (c : Char) :
    digitsToNat (xs ++ [c]) = 10 * digitsToNat xs + (c.toNat - 48) := by
  simp [digitsToNat]

theorem digitsToNat_natDigits (n : Nat) : digitsToNat (natDigits n) = n := by
  induction n using Nat.strong_induction_on with
  | _ n ih =>
    rw [natDigits]
    split
    · rename_i h
      simp [digitsToNat, digitChar_toNat n h]
    · rename_i h
      rw [digitsToNat_append, ih (n / 10) (Nat.div_lt_self (by omega) (by omega)),
        digitChar_toNat (n % 10) (Nat.mod_lt _ (by omega))]
      omega

theorem takeWhile_digits (cs : List Char)
    (h : ∀ c ∈ cs, ∃ k, k < 10 ∧ c = digitChar k) :
    cs.takeWhile Char.isDigit = cs := by
  induction cs with
  | nil => rfl
  | cons c cs ih =>
      obtain ⟨k, hk, hc⟩ := h c (List.mem_cons_self c cs)
      rw [List.takeWhile_cons]
      rw [hc, (digitChar_props k hk).1]
      simp only [if_true]
      rw [ih (fun d hd => h d (List.mem_cons_of_mem c hd))]

theorem parseDigits_natDigits (n : Nat) : parseDigits (natDigits n) = some n := by
  unfold parseDigits
  rw [takeWhile_digits _ (natDigits_mem n)]
  simp [natDigits_ne_nil n, digitsToNat_natDigits n]

/-- `parseInt` inverts `toString` on every integer. -/
theorem parseIntTS_intToStr (i : Int) : parseIntTS (intToStr i) = some i := by
  unfold parseIntTS intToStr
  split
  · rename_i hneg
    have hdata : ("-" ++ natToStr i.natAbs).data = '-' :: natDigits i.natAbs := rfl
    rw [hdata]
    rw [List.dropWhile_cons]
    rw [if_neg (by decide)]
    simp only [parseSigned, if_pos rfl]
    have habs : ((i.natAbs : Nat) : Int) = -i := by omega
    simp [parseDigits_natDigits, habs]
  · rename_i hpos
    have hdata : (natToStr i.natAbs).data = natDigits i.natAbs := rfl
    rw [hdata]
    obtain ⟨c, cs, hcons⟩ : ∃ c cs, natDigits i.natAbs = c :: cs := by
      cases hh : natDigits i.natAbs with
      | nil => exact absurd hh (natDigits_ne_nil _)
      | cons c cs => exact ⟨c, cs, rfl⟩
    obtain ⟨k, hk, hc⟩ := natDigits_mem i.natAbs c (hcons ▸ List.mem_cons_self c cs)
    rw [hcons, List.dropWhile_cons]
    rw [if_neg (by rw [hc, (digitChar_props k hk).2.1]; exact Bool.false_ne_true)]
    simp only [parseSigned]
    rw [if_neg (hc ▸ (digitChar_props k hk).2.2.1), if_neg (hc ▸ (digitChar_props k hk).2.2.2)]
    rw [← hcons]
    have habs : ((i.natAbs : Nat) : Int) = i := by omega
    simp [parseDigits_natDigits, habs]

/-! ## State-engine lemmas -/

theorem clamp100_bounds (x : Int) : 0 ≤ clamp100 x ∧ clamp100 x ≤ 100 := by
  unfold clamp100
  constructor
  · exact le_max_left 0 _
  · exact max_le (by norm_num) (min_le_left 100 x)

theorem applyDerivation_inv (step : Int) (a : EmotionAction) (c : CreatureState) :
    creatureInv (applyDerivation step a c) := by
  cases a <;>
    exact ⟨(clamp100_bounds _).1, (clamp100_bounds _).2,
           (clamp100_bounds _).1, (clamp100_bounds _).2⟩

theorem addLog_ok_creature (step : Int) (newId : String) (now : Int)
    (st : AppState) (text : String) (action : EmotionAction)
    (tc : Option TextColor) (qe : Option QuickEmotion) (st' : AppState)
    (h : addLog step newId now st text action tc qe = .ok st') :
    st'.creatureState = applyDerivation step action st.creatureState := by
  simp only [addLog] at h
  split at h
  · exact Except.noConfusion h
  · cases h
    rfl

theorem engineStep_inv (st : AppState) (r : LogRequest)
    (h : creatureInv st.creatureState) :
    creatureInv (engineStep st r).creatureState := by
  unfold engineStep
  cases heq : addLog r.step r.newId r.now st r.text r.action r.textColor r.quickEmotion with
  | error e => exact h
  | ok st' =>
      rw [addLog_ok_creature r.step r.newId r.now st r.text r.action
        r.textColor r.quickEmotion st' heq]
      exact applyDerivation_inv r.step r.action st.creatureState

theorem runEngine_inv (s0 : AppState) (rs : List LogRequest)
    (h : creatureInv s0.creatureState) :
    creatureInv (runEngine s0 rs).creatureState := by
  induction rs generalizing s0 with
  | nil => exact h
  | cons r rs ih =>
      simp only [runEngine, List.foldl_cons]
      exact ih (engineStep s0 r) (engineStep_inv s0 r h)

/-! ## Storage lemmas -/

theorem textColor_toStr_ne_empty (c : TextColor) : c.toStr ≠ "" := by
  cases c with
  | white => decide
  | pastel p => cases p <;> decide

theorem natToStr_ne_empty (n : Nat) : natToStr n ≠ "" := by
  intro h
  have hdata : (natToStr n).data = ("" : String).data := congrArg String.data h
  exact natDigits_ne_nil n hdata

theorem intToStr_ne_empty (i : Int) : intToStr i ≠ "" := by
  unfold intToStr
  split
  · intro h
    have hdata : ("-" ++ natToStr i.natAbs).data = ("" : String).data :=
      congrArg String.data h
    exact List.noConfusion hdata
  · exact natToStr_ne_empty i.natAbs

theorem lookup_setField_self (fs : List (String × Json)) (k : String) (v : Json) :
    lookupField (setField fs k v) k = some v := by
  induction fs with
  | nil => simp [setField, lookupField]
  | cons f fs ih =>
      obtain ⟨k2, v2⟩ := f
      by_cases h : k2 = k
      · simp [setField, h, lookupField]
      · simp [setField, h, lookupField, ih]

theorem migrateLogJson_idem (x y : Json) (h : migrateLogJson x = some y) :
    migrateLogJson y = some y := by
  cases x with
  | obj fs =>
      by_cases ht : isTruthy (lookupField fs "textColor") = true
      · rw [migrateLogJson, if_pos ht] at h
        cases h
        rw [migrateLogJson, if_pos ht]
      · rw [migrateLogJson, if_neg ht] at h
        cases h
        rw [migrateLogJson,
          if_pos (by rw [lookup_setField_self]; decide)]
  | arr xs =>
      rw [migrateLogJson] at h
      cases h
      rw [migrateLogJson]
  | null => exact Option.noConfusion h
  | bool b => exact Option.noConfusion h
  | num n => exact Option.noConfusion h
  | str s => exact Option.noConfusion h

theorem mapM_migrate_idem (xs ys : List Json) (h : xs.mapM migrateLogJson = some ys) :
    ys.mapM migrateLogJson = some ys := by
  induction xs generalizing ys with
  | nil =>
      simp only [List.mapM_nil, pure] at h
      cases h
      rfl
  | cons x xs ih =>
      rw [List.mapM_cons] at h
      cases hx : migrateLogJson x with
      | none => rw [hx] at h; simp at h
      | some y =>
          rw [hx] at h
          cases hxs : xs.mapM migrateLogJson with
          | none => rw [hxs] at h; simp at h
          | some ys2 =>
              rw [hxs] at h
              simp only [Option.bind_eq_bind, Option.some_bind, pure] at h
              cases h
              rw [List.mapM_cons, migrateLogJson_idem x y hx, ih ys2 hxs]
              rfl

theorem migrate_encode_some_textColor (l : EmotionLog) (c : TextColor)
    (h : l.textColor = some c) :
    migrateLogJson (encodeLog l) = some (encodeLog l) := by
  cases hqe : l.quickEmotion <;>
    simp [encodeLog, h, hqe, migrateLogJson, lookupField, isTruthy,
      textColor_toStr_ne_empty c]

theorem migrate_encodeLog_fields (l : EmotionLog) :
    ∃ fs, migrateLogJson (encodeLog l) = some (.obj fs) ∧
      lookupField fs "textColor" = some (.str ((l.textColor.getD .white).toStr)) ∧
      lookupField fs "id" = some (.str l.id) ∧
      lookupField fs "text" = some (.str l.text) ∧
      lookupField fs "action" = some (.str l.action.toStr) ∧
      lookupField fs "timestamp" = some (.num l.timestamp) ∧
      lookupField fs "quickEmotion" = l.quickEmotion.map (fun q => .str q.toStr) := by
  obtain ⟨id, text, action, ts, tc, qe⟩ := l
  cases tc with
  | some c =>
      cases qe with
      | none =>
          refine ⟨[("id", .str id), ("text", .str text), ("action", .str action.toStr),
                   ("timestamp", .num ts), ("textColor", .str c.toStr)], ?_, ?_⟩
          · simp [encodeLog, migrateLogJson, lookupField, isTruthy,
              textColor_toStr_ne_empty c]
          · simp [lookupField]
      | some q =>
          refine ⟨[("id", .str id), ("text", .str text), ("action", .str action.toStr),
                   ("timestamp", .num ts), ("textColor", .str c.toStr),
                   ("quickEmotion", .str q.toStr)], ?_, ?_⟩
          · simp [encodeLog, migrateLogJson, lookupField, isTruthy,
              textColor_toStr_ne_empty c]
          · simp [lookupField]
  | none =>
      cases qe with
      | none =>
          refine ⟨[("id", .str id), ("text", .str text), ("action", .str action.toStr),
                   ("timestamp", .num ts), ("textColor", .str "white")], ?_, ?_⟩
          · simp [encodeLog, migrateLogJson, lookupField, isTruthy, setField]
          · simp [lookupField, TextColor.toStr]
      | some q =>
          refine ⟨[("id", .str id), ("text", .str text), ("action", .str action.toStr),
                   ("timestamp", .num ts), ("quickEmotion", .str q.toStr),
                   ("textColor", .str "white")], ?_, ?_⟩
          · simp [encodeLog, migrateLogJson, lookupField, isTruthy, setField]
          · simp [lookupField, TextColor.toStr]

theorem mapM_migrate_encode (v : List EmotionLog) :
    ∃ w, (v.map encodeLog).mapM migrateLogJson = some w ∧ w.length = v.length ∧
      ∀ i l, v.get? i = some l → w.get? i = migrateLogJson (encodeLog l) := by
  induction v with
  | nil => exact ⟨[], rfl, rfl, by simp⟩
  | cons l v ih =>
      obtain ⟨w, hw, hlen, hidx⟩ := ih
      obtain ⟨fs, hfs, -⟩ := migrate_encodeLog_fields l
      refine ⟨.obj fs :: w, ?_, by simp [hlen], ?_⟩
      · rw [List.map_cons, List.mapM_cons, hfs, hw]
        rfl
      · intro i l2 hi
        cases i with
        | zero =>
            simp only [List.get?] at hi ⊢
            cases hi
            exact hfs.symm
        | succ i =>
            simp only [List.get?] at hi ⊢
            exact hidx i l2 hi

theorem mapM_encode_all_some (v : List EmotionLog)
    (h : ∀ l ∈ v, l.textColor.isSome = true) :
    (v.map encodeLog).mapM migrateLogJson = some (v.map encodeLog) := by
  induction v with
  | nil => rfl
  | cons l v ih =>
      obtain ⟨c, hc⟩ := Option.isSome_iff_exists.1 (h l (List.mem_cons_self l v))
      rw [List.map_cons, List.mapM_cons, migrate_encode_some_textColor l c hc,
        ih (fun x hx => h x (List.mem_cons_of_mem l hx))]
      rfl

/-! ## Claim theorems -/

/-- C1: for every text that is 1 to 100 characters after trimming and
every action, one `addLog` call succeeds, grows the log collection by
exactly 1, raises the safety score by exactly 1 for `expressed`, and
leaves it unchanged for `suppressed`. -/
theorem C1_addLog_increments (step : Int) (newId : String) (now : Int)
    (st : AppState) (text : String) (action : EmotionAction)
    (tc : Option TextColor) (qe : Option QuickEmotion)
    (h1 : 1 ≤ (jsTrim text).length) (h2 : (jsTrim text).length ≤ 100) :
    ∃ st', addLog step newId now st text action tc qe = .ok st' ∧
      st'.logs.length = st.logs.length + 1 ∧
      (action = .expressed → st'.safetyScore = st.safetyScore + 1) ∧
      (action = .suppressed → st'.safetyScore = st.safetyScore) := by
  simp only [addLog]
  rw [if_neg (by omega)]
  refine ⟨_, rfl, ?_, ?_, ?_⟩
  · simp
  · rintro rfl
    simp [scoreDelta]
  · rintro rfl
    simp [scoreDelta]

/-- Witness for C1 at a concrete input. -/
theorem C1_addLog_increments_witness :
    (1 ≤ (jsTrim "feeling happy").length ∧ (jsTrim "feeling happy").length ≤ 100) ∧
    ∃ st', addLog 15 "id-1" 0 initialAppState "feeling happy" .expressed none none
        = .ok st' ∧
      st'.logs.length = initialAppState.logs.length + 1 ∧
      (EmotionAction.expressed = .expressed →
        st'.safetyScore = initialAppState.safetyScore + 1) ∧
      (EmotionAction.expressed = .suppressed →
        st'.safetyScore = initialAppState.safetyScore) :=
  ⟨⟨by decide, by decide⟩,
   C1_addLog_increments 15 "id-1" 0 initialAppState "feeling happy" .expressed
     none none (by decide) (by decide)⟩

/-- C2: starting from any snapshot whose creature state is within
bounds (in particular the documented default), after every `addLog`
call of any sequence — any mix of actions and any per-event step
magnitude — brightness and size remain integers in `[0,100]`. -/
theorem C2_creature_bounds (s0 : AppState) (h : creatureInv s0.creatureState)
    (rs : List LogRequest) (i : Nat) :
    creatureInv (runEngine s0 (rs.take i)).creatureState :=
  runEngine_inv s0 (rs.take i) h

/-- Witness for C2: two calls with a huge step. -/
theorem C2_creature_bounds_witness :
    creatureInv initialAppState.creatureState ∧
    creatureInv (runEngine initialAppState
      ([⟨1000000, "a", 0, "hi", .expressed, none, none⟩,
        ⟨1000000, "b", 1, "hi", .suppressed, none, none⟩].take 2)).creatureState :=
  ⟨by decide,
   C2_creature_bounds initialAppState (by decide)
     [⟨1000000, "a", 0, "hi", .expressed, none, none⟩,
      ⟨1000000, "b", 1, "hi", .suppressed, none, none⟩] 2⟩

/-- C10: `getMicroSentenceByIndex` wraps every non-negative index modulo
the 10-element list and returns an element of the list, while
`getNextMicroSentence` indexes without wrapping, so every `currentIndex`
outside `0..9` reads out of bounds (`undefined`) although `nextIndex` is
still computed modulo the list length. -/
theorem C10_microSentence (i : Int) :
    (0 ≤ i → ∃ s, getMicroSentenceByIndex i = some s ∧ s ∈ MICRO_SENTENCES) ∧
    ((i < 0 ∨ 10 ≤ i) → (getNextMicroSentence i).1 = none) ∧
    (getNextMicroSentence i).2 = (i + 1).tmod 10 := by
  refine ⟨?_, ?_, rfl⟩
  · intro hi
    unfold getMicroSentenceByIndex jsIndex
    have hcast : ((MICRO_SENTENCES.length : Nat) : Int) = 10 := rfl
    rw [hcast]
    have hje : i.tmod 10 = i % 10 := Int.tmod_eq_emod hi (by norm_num)
    have hb0 : 0 ≤ i.tmod 10 := by rw [hje]; omega
    have hnat : (i.tmod 10).toNat < MICRO_SENTENCES.length := by
      have hlen : MICRO_SENTENCES.length = 10 := rfl
      rw [hlen]
      rw [hje]
      omega
    rw [if_pos hb0]
    exact ⟨MICRO_SENTENCES.get ⟨(i.tmod 10).toNat, hnat⟩,
      List.get?_eq_get hnat, List.get_mem _ _ _⟩
  · rintro (hneg | hge)
    · unfold getNextMicroSentence jsIndex
      rw [if_neg (by omega)]
    · unfold getNextMicroSentence jsIndex
      rw [if_pos (by omega)]
      apply List.get?_eq_none.2
      have hlen : MICRO_SENTENCES.length = 10 := rfl
      rw [hlen]
      omega

/-- Witness for C10 at the concrete out-of-range index 11. -/
theorem C10_microSentence_witness :
    ((0 : Int) ≤ 11 ∧ ∃ s, getMicroSentenceByIndex 11 = some s ∧ s ∈ MICRO_SENTENCES) ∧
    ((10 : Int) ≤ 11 ∧ (getNextMicroSentence 11).1 = none) :=
  ⟨⟨by decide, (C10_microSentence 11).1 (by decide)⟩,
   ⟨by decide, (C10_microSentence 11).2.1 (Or.inr (by decide))⟩⟩

/-- C7: every write operation of the storage service, on a probe failure
or a throwing store write, returns `success: false` with a non-empty
error message, and `getLastError()` afterwards returns that same
message (no exception escapes: the operations are total). -/
theorem C7_save_failures (op : SaveOp) (env : StorageEnv) (st : ServiceState)
    (h : env.probeOk = false ∨ env.writeErr.isSome = true) :
    (runSave op env st).1.success = false ∧
    ∃ e, (runSave op env st).1.error = some e ∧ e ≠ "" ∧
      getLastError (runSave op env st).2 = some e := by
  obtain ⟨p, w⟩ := env
  cases p
  · cases op <;> exact ⟨rfl, _, rfl, by decide, rfl⟩
  · rcases h with h | h
    · exact absurd h (by simp)
    · cases w with
      | none => simp at h
      | some er => cases er <;> cases op <;> exact ⟨rfl, _, rfl, by decide, rfl⟩

/-- Witness for C7: a failing `saveCustomization` on an unavailable store. -/
theorem C7_save_failures_witness :
    ((false : Bool) = false ∨ (Option.isSome (α := JsErr) none) = true) ∧
    ((runSave (.customization ⟨"Vega", .mint, true⟩) ⟨false, none⟩ emptyServiceState).1.success
        = false ∧
     ∃ e, (runSave (.customization ⟨"Vega", .mint, true⟩) ⟨false, none⟩
          emptyServiceState).1.error = some e ∧ e ≠ "" ∧
       getLastError (runSave (.customization ⟨"Vega", .mint, true⟩) ⟨false, none⟩
          emptyServiceState).2 = some e) :=
  ⟨Or.inl rfl,
   C7_save_failures (.customization ⟨"Vega", .mint, true⟩) ⟨false, none⟩
     emptyServiceState (Or.inl rfl)⟩

/-- C8 counterexample: on a quota (store-full) failure,
`saveCreatureState` returns its one generic message — identical to what
a generic failure produces and distinct from the store-full
classification the claim requires for every save operation. -/
theorem C8_counterexample :
    (saveCreatureState ⟨true, some .quotaExceeded⟩ ⟨50, 50, .idle⟩ emptyServiceState).1
      = ⟨false, some "Failed to save creature state"⟩ ∧
    (saveCreatureState ⟨true, some .quotaExceeded⟩ ⟨50, 50, .idle⟩ emptyServiceState).1
      = (saveCreatureState ⟨true, some .generic⟩ ⟨50, 50, .idle⟩ emptyServiceState).1 ∧
    "Failed to save creature state" ≠ storageFullMsg :=
  ⟨rfl, rfl, by decide⟩

/-- C8 (amended): only `saveLogs` classifies write failures into the
three distinct classes (store full on quota, store unavailable on probe
failure, generic otherwise); every other save operation distinguishes
only store-unavailable from a per-entity generic message, and returns
that generic message even when the failure is the quota condition. -/
theorem C8_amended (st : ServiceState) (xs : List Json) (op : SaveOp)
    (hop : op.isLogs = false) :
    (saveLogs ⟨true, some .quotaExceeded⟩ xs st).1.error = some storageFullMsg ∧
    (saveLogs ⟨false, none⟩ xs st).1.error = some unavailableMsg ∧
    (saveLogs ⟨true, some .generic⟩ xs st).1.error = some saveDataFailedMsg ∧
    (storageFullMsg ≠ unavailableMsg ∧ storageFullMsg ≠ saveDataFailedMsg ∧
      unavailableMsg ≠ saveDataFailedMsg) ∧
    (runSave op ⟨true, some .quotaExceeded⟩ st).1
      = (runSave op ⟨true, some .generic⟩ st).1 ∧
    (runSave op ⟨true, some .quotaExceeded⟩ st).1.error = some op.genericMsg ∧
    (runSave op ⟨false, none⟩ st).1.error = some unavailableMsg ∧
    op.genericMsg ≠ unavailableMsg := by
  refine ⟨rfl, rfl, rfl, ⟨by decide, by decide, by decide⟩, ?_⟩
  cases op with
  | logs ys => simp [SaveOp.isLogs] at hop
  | creature v =>
      exact ⟨rfl, rfl, rfl,
        (by decide : "Failed to save creature state" ≠ unavailableMsg)⟩
  | safety n =>
      exact ⟨rfl, rfl, rfl,
        (by decide : "Failed to save safety score" ≠ unavailableMsg)⟩
  | customization v =>
      exact ⟨rfl, rfl, rfl,
        (by decide : "Failed to save customization" ≠ unavailableMsg)⟩
  | microIndex n =>
      exact ⟨rfl, rfl, rfl,
        (by decide : "Failed to save micro-sentence index" ≠ unavailableMsg)⟩
  | textColorPref c =>
      exact ⟨rfl, rfl, rfl,
        (by decide : "Failed to save text color preference" ≠ unavailableMsg)⟩

/-- Witness for C8 (amended) at the safety-score write. -/
theorem C8_amended_witness :
    (SaveOp.safety 0).isLogs = false ∧
    ((runSave (.safety 0) ⟨true, some .quotaExceeded⟩ emptyServiceState).1
        = (runSave (.safety 0) ⟨true, some .generic⟩ emptyServiceState).1 ∧
     (runSave (.safety 0) ⟨true, some .quotaExceeded⟩ emptyServiceState).1.error
        = some (SaveOp.safety 0).genericMsg) :=
  ⟨rfl,
   ⟨(C8_amended emptyServiceState [] (.safety 0) rfl).2.2.2.2.1,
    (C8_amended emptyServiceState [] (.safety 0) rfl).2.2.2.2.2.1⟩⟩

/-- C3 counterexample: saving a log collection whose single record lacks
`textColor` and loading it back yields a collection that differs from
the saved one — the loaded record carries `textColor: "white"`. -/
theorem C3_counterexample :
    loadLogs ⟨true, none⟩
        (saveLogs ⟨true, none⟩
          [encodeLog ⟨"a", "hi", .expressed, 0, none, none⟩] emptyServiceState).2
      ≠ [encodeLog ⟨"a", "hi", .expressed, 0, none, none⟩] := by
  intro h
  rw [show loadLogs ⟨true, none⟩
        (saveLogs ⟨true, none⟩
          [encodeLog ⟨"a", "hi", .expressed, 0, none, none⟩] emptyServiceState).2
      = [.obj [("id", .str "a"), ("text", .str "hi"), ("action", .str "expressed"),
               ("timestamp", .num 0), ("textColor", .str "white")]] from rfl] at h
  simp [encodeLog, EmotionAction.toStr] at h

/-- C3 (amended): with the store available and the write succeeding,
save-then-load returns a value equal to the saved one for the creature
state, safety score, customization, micro-sentence index and text-color
preference; for logs this holds for every collection whose records all
carry `textColor` (a record without it comes back with
`textColor: "white"` instead). -/
theorem C3_amended_roundtrip (env : StorageEnv) (st : ServiceState)
    (hp : env.probeOk = true) (hw : env.writeErr = none) :
    (∀ v : List EmotionLog, (∀ l ∈ v, l.textColor.isSome = true) →
        loadLogs env (saveLogs env (v.map encodeLog) st).2 = v.map encodeLog) ∧
    (∀ v : CreatureState,
        loadCreatureState env (saveCreatureState env v st).2
          = some (encodeCreatureState v)) ∧
    (∀ n : Int, loadSafetyScore env (saveSafetyScore env n st).2 = n) ∧
    (∀ v : CreatureCustomization,
        loadCustomization env (saveCustomization env v st).2
          = some (encodeCustomization v)) ∧
    (∀ i : Int, loadMicroSentenceIndex env (saveMicroSentenceIndex env i st).2 = i) ∧
    (∀ c : TextColor,
        loadTextColorPreference env (saveTextColorPreference env c.toStr st).2
          = c.toStr) := by
  obtain ⟨p, w⟩ := env
  subst hp
  subst hw
  refine ⟨?_, ?_, ?_, ?_, ?_, ?_⟩
  · intro v hv
    show ((v.map encodeLog).mapM migrateLogJson).getD [] = v.map encodeLog
    rw [mapM_encode_all_some v hv]
    rfl
  · intro v
    rfl
  · intro n
    show (if intToStr n = "" then 0 else
      match parseIntTS (intToStr n) with
      | none => 0
      | some m => m) = n
    rw [if_neg (intToStr_ne_empty n), parseIntTS_intToStr n]
  · intro v
    rfl
  · intro i
    show (if intToStr i = "" then 0 else
      match parseIntTS (intToStr i) with
      | none => 0
      | some m => m) = i
    rw [if_neg (intToStr_ne_empty i), parseIntTS_intToStr i]
  · intro c
    show (if c.toStr = "" then "white" else c.toStr) = c.toStr
    rw [if_neg (textColor_toStr_ne_empty c)]

/-- Witness for C3 (amended): concrete round trips of a safety score and
of a log collection whose record has a `textColor`. -/
theorem C3_amended_roundtrip_witness :
    loadSafetyScore ⟨true, none⟩
      (saveSafetyScore ⟨true, none⟩ 5 emptyServiceState).2 = 5 ∧
    loadLogs ⟨true, none⟩
      (saveLogs ⟨true, none⟩
        ([⟨"a", "hi", .expressed, 0, some .white, none⟩].map encodeLog)
        emptyServiceState).2
      = [⟨"a", "hi", .expressed, 0, some .white, none⟩].map encodeLog :=
  ⟨(C3_amended_roundtrip ⟨true, none⟩ emptyServiceState rfl rfl).2.2.1 5,
   (C3_amended_roundtrip ⟨true, none⟩ emptyServiceState rfl rfl).1
     [⟨"a", "hi", .expressed, 0, some .white, none⟩] (by decide)⟩

/-- C5: loading a persisted collection of logs assigns `textColor`
`"white"` to exactly the records missing it, preserves present
`textColor` values, keeps the required fields, and leaves `quickEmotion`
absent when it is missing. -/
theorem C5_migration (env : StorageEnv) (st : ServiceState) (v : List EmotionLog)
    (hp : env.probeOk = true)
    (hs : st.logsSlot = some (.ok (.arr (v.map encodeLog)))) :
    (loadLogs env st).length = v.length ∧
    ∀ i l, v.get? i = some l →
      ∃ fs, (loadLogs env st).get? i = some (.obj fs) ∧
        lookupField fs "textColor" = some (.str ((l.textColor.getD .white).toStr)) ∧
        lookupField fs "id" = some (.str l.id) ∧
        lookupField fs "text" = some (.str l.text) ∧
        lookupField fs "action" = some (.str l.action.toStr) ∧
        lookupField fs "timestamp" = some (.num l.timestamp) ∧
        lookupField fs "quickEmotion" = l.quickEmotion.map (fun q => .str q.toStr) := by
  obtain ⟨p, pw⟩ := env
  subst hp
  obtain ⟨w, hw2, hlen, hidx⟩ := mapM_migrate_encode v
  have hload : loadLogs ⟨true, pw⟩ st = w := by
    unfold loadLogs
    rw [hs]
    show ((v.map encodeLog).mapM migrateLogJson).getD [] = w
    rw [hw2]
    rfl
  refine ⟨by rw [hload, hlen], ?_⟩
  intro i l hi
  obtain ⟨fs, hfs, h1, h2, h3, h4, h5, h6⟩ := migrate_encodeLog_fields l
  refine ⟨fs, ?_, h1, h2, h3, h4, h5, h6⟩
  rw [hload, hidx i l hi, hfs]

/-- Witness for C5: one stored record without `textColor` and with a
`quickEmotion`. -/
theorem C5_migration_witness :
    (loadLogs ⟨true, none⟩
        { emptyServiceState with logsSlot := some (.ok (.arr
            ([⟨"b", "tense", .suppressed, 7, none, some .anxious⟩].map encodeLog))) }).length
      = [(⟨"b", "tense", .suppressed, 7, none, some .anxious⟩ : EmotionLog)].length ∧
    ∃ fs, (loadLogs ⟨true, none⟩
        { emptyServiceState with logsSlot := some (.ok (.arr
            ([⟨"b", "tense", .suppressed, 7, none, some .anxious⟩].map encodeLog))) }).get? 0
        = some (.obj fs) ∧
      lookupField fs "textColor"
        = some (.str (((⟨"b", "tense", .suppressed, 7, none, some .anxious⟩ :
            EmotionLog).textColor.getD .white).toStr)) ∧
      lookupField fs "id" = some (.str "b") ∧
      lookupField fs "text" = some (.str "tense") ∧
      lookupField fs "action" = some (.str (EmotionAction.suppressed).toStr) ∧
      lookupField fs "timestamp" = some (.num 7) ∧
      lookupField fs "quickEmotion"
        = Option.map (fun q => Json.str q.toStr) (some QuickEmotion.anxious) :=
  ⟨(C5_migration ⟨true, none⟩ _ [⟨"b", "tense", .suppressed, 7, none, some .anxious⟩]
      rfl rfl).1,
   (C5_migration ⟨true, none⟩ _ [⟨"b", "tense", .suppressed, 7, none, some .anxious⟩]
      rfl rfl).2 0 ⟨"b", "tense", .suppressed, 7, none, some .anxious⟩ rfl⟩

/-- C6: the log migration is idempotent — saving the result of a load
and loading again yields the identical collection, for every stored
content. -/
theorem C6_migration_idempotent (env : StorageEnv) (st : ServiceState)
    (hp : env.probeOk = true) (hw : env.writeErr = none) :
    loadLogs env (saveLogs env (loadLogs env st) st).2 = loadLogs env st := by
  obtain ⟨p, w⟩ := env
  subst hp
  subst hw
  have hmapM : (loadLogs ⟨true, none⟩ st).mapM migrateLogJson
      = some (loadLogs ⟨true, none⟩ st) := by
    unfold loadLogs
    cases hslot : st.logsSlot with
    | none => rfl
    | some c =>
        cases c with
        | bad => rfl
        | ok j =>
            cases j with
            | arr xs =>
                show ((xs.mapM migrateLogJson).getD []).mapM migrateLogJson
                    = some ((xs.mapM migrateLogJson).getD [])
                cases hm : xs.mapM migrateLogJson with
                | none => rfl
                | some ys => exact mapM_migrate_idem xs ys hm
            | null => rfl
            | bool b => rfl
            | num n => rfl
            | str s => rfl
            | obj fs => rfl
  show ((loadLogs ⟨true, none⟩ st).mapM migrateLogJson).getD []
      = loadLogs ⟨true, none⟩ st
  rw [hmapM]
  rfl

/-- Witness for C6 on a store holding one unmigrated record. -/
theorem C6_migration_idempotent_witness :
    loadLogs ⟨true, none⟩
        (saveLogs ⟨true, none⟩
          (loadLogs ⟨true, none⟩
            { emptyServiceState with logsSlot := some (.ok (.arr [.obj [("id", .str "a")]])) })
          { emptyServiceState with logsSlot := some (.ok (.arr [.obj [("id", .str "a")]])) }).2
      = loadLogs ⟨true, none⟩
          { emptyServiceState with logsSlot := some (.ok (.arr [.obj [("id", .str "a")]])) } :=
  C6_migration_idempotent ⟨true, none⟩
    { emptyServiceState with logsSlot := some (.ok (.arr [.obj [("id", .str "a")]])) }
    rfl rfl

/-- C4 counterexample: a stored logs array whose single record is an
empty object passes the only check (`Array.isArray`), so `loadLogs`
surfaces a record that lacks the required `id` (and `text`, `action`,
`timestamp`) fields. -/
theorem C4_counterexample :
    loadLogs ⟨true, none⟩
        { emptyServiceState with logsSlot := some (.ok (.arr [.obj []])) }
      = [.obj [("textColor", .str "white")]] ∧
    lookupField [("textColor", Json.str "white")] "id" = none :=
  ⟨rfl, rfl⟩

/-- C4 (amended): every load returns its documented default when the
stored content is missing, fails to parse, or fails that load's
top-level shape check — but `loadLogs` checks only that the content is
an array, so individual records are not validated and may lack required
fields. -/
theorem C4_amended_defaults (env : StorageEnv) (st : ServiceState)
    (hp : env.probeOk = true) :
    ((st.logsSlot = none ∨ st.logsSlot = some .bad ∨
        ∃ j, st.logsSlot = some (.ok j) ∧ ∀ xs, j ≠ .arr xs) →
      loadLogs env st = []) ∧
    ((st.creatureSlot = none ∨ st.creatureSlot = some .bad ∨
        ∃ j, st.creatureSlot = some (.ok j) ∧
          ¬ ∃ b s, jsGet j "brightness" = some b ∧ jsGet j "size" = some s ∧
              (typeofNumber b && typeofNumber s) = true) →
      loadCreatureState env st = none) ∧
    ((st.customizationSlot = none ∨ st.customizationSlot = some .bad ∨
        ∃ j, st.customizationSlot = some (.ok j) ∧
          ¬ ∃ n c b, jsGet j "name" = some n ∧ jsGet j "color" = some c ∧
              jsGet j "hasBow" = some b ∧
              (typeofString n && typeofString c && typeofBoolean b) = true) →
      loadCustomization env st = none) ∧
    ((st.safetySlot = none ∨ ∃ s, st.safetySlot = some s ∧ parseIntTS s = none) →
      loadSafetyScore env st = 0) ∧
    ((st.microSlot = none ∨ ∃ s, st.microSlot = some s ∧ parseIntTS s = none) →
      loadMicroSentenceIndex env st = 0) ∧
    ((st.textPrefSlot = none ∨ st.textPrefSlot = some "") →
      loadTextColorPreference env st = "white") := by
  obtain ⟨p, w⟩ := env
  subst hp
  refine ⟨?_, ?_, ?_, ?_, ?_, ?_⟩
  · rintro (h | h | ⟨j, hj, hja⟩)
    · unfold loadLogs
      rw [h]
      rfl
    · unfold loadLogs
      rw [h]
      rfl
    · unfold loadLogs
      rw [hj]
      cases j with
      | arr xs => exact absurd rfl (hja xs)
      | null => rfl
      | bool b => rfl
      | num n => rfl
      | str s => rfl
      | obj fs => rfl
  · rintro (h | h | ⟨j, hj, hne⟩)
    · unfold loadCreatureState
      rw [h]
      rfl
    · unfold loadCreatureState
      rw [h]
      rfl
    · unfold loadCreatureState
      rw [hj]
      show (match jsGet j "brightness", jsGet j "size" with
        | some b, some s =>
            if typeofNumber b && typeofNumber s then some j else none
        | _, _ => none) = none
      cases hb : jsGet j "brightness" with
      | none => rfl
      | some b =>
          cases hs2 : jsGet j "size" with
          | none => rfl
          | some s =>
              show (if typeofNumber b && typeofNumber s then some j else none) = none
              rw [if_neg]
              intro hcond
              exact hne ⟨b, s, hb, hs2, hcond⟩
  · rintro (h | h | ⟨j, hj, hne⟩)
    · unfold loadCustomization
      rw [h]
      rfl
    · unfold loadCustomization
      rw [h]
      rfl
    · unfold loadCustomization
      rw [hj]
      show (match jsGet j "name", jsGet j "color", jsGet j "hasBow" with
        | some n, some c, some b =>
            if typeofString n && typeofString c && typeofBoolean b then some j else none
        | _, _, _ => none) = none
      cases hn : jsGet j "name" with
      | none => rfl
      | some n =>
          cases hc : jsGet j "color" with
          | none => rfl
          | some c =>
              cases hb : jsGet j "hasBow" with
              | none => rfl
              | some b =>
                  show (if typeofString n && typeofString c && typeofBoolean b
                    then some j else none) = none
                  rw [if_neg]
                  intro hcond
                  exact hne ⟨n, c, b, hn, hc, hb, hcond⟩
  · rintro (h | ⟨s, hs2, hps⟩)
    · unfold loadSafetyScore
      rw [h]
      rfl
    · unfold loadSafetyScore
      rw [hs2]
      show (if s = "" then (0 : Int) else
        match parseIntTS s with
        | none => (0 : Int)
        | some m => m) = 0
      by_cases hempty : s = ""
      · rw [if_pos hempty]
      · rw [if_neg hempty, hps]
  · rintro (h | ⟨s, hs2, hps⟩)
    · unfold loadMicroSentenceIndex
      rw [h]
      rfl
    · unfold loadMicroSentenceIndex
      rw [hs2]
      show (if s = "" then (0 : Int) else
        match parseIntTS s with
        | none => (0 : Int)
        | some m => m) = 0
      by_cases hempty : s = ""
      · rw [if_pos hempty]
      · rw [if_neg hempty, hps]
  · rintro (h | h)
    · unfold loadTextColorPreference
      rw [h]
      rfl
    · unfold loadTextColorPreference
      rw [h]
      rfl

/-- Witness for C4 (amended) on a store whose every slot is corrupt. -/
theorem C4_amended_defaults_witness :
    loadLogs ⟨true, none⟩
        { emptyServiceState with
          logsSlot := some (.bad)
          creatureSlot := some (.ok (.num 3))
          customizationSlot := some (.ok (.null))
          safetySlot := some "abc"
          microSlot := some "x"
          textPrefSlot := some "" }
      = [] ∧
    loadCreatureState ⟨true, none⟩
        { emptyServiceState with
          logsSlot := some (.bad)
          creatureSlot := some (.ok (.num 3))
          customizationSlot := some (.ok (.null))
          safetySlot := some "abc"
          microSlot := some "x"
          textPrefSlot := some "" }
      = none ∧
    loadCustomization ⟨true, none⟩
        { emptyServiceState with
          logsSlot := some (.bad)
          creatureSlot := some (.ok (.num 3))
          customizationSlot := some (.ok (.null))
          safetySlot := some "abc"
          microSlot := some "x"
          textPrefSlot := some "" }
      = none ∧
    loadSafetyScore ⟨true, none⟩
        { emptyServiceState with
          logsSlot := some (.bad)
          creatureSlot := some (.ok (.num 3))
          customizationSlot := some (.ok (.null))
          safetySlot := some "abc"
          microSlot := some "x"
          textPrefSlot := some "" }
      = 0 ∧
    loadMicroSentenceIndex ⟨true, none⟩
        { emptyServiceState with
          logsSlot := some (.bad)
          creatureSlot := some (.ok (.num 3))
          customizationSlot := some (.ok (.null))
          safetySlot := some "abc"
          microSlot := some "x"
          textPrefSlot := some "" }
      = 0 ∧
    loadTextColorPreference ⟨true, none⟩
        { emptyServiceState with
          logsSlot := some (.bad)
          creatureSlot := some (.ok (.num 3))
          customizationSlot := some (.ok (.null))
          safetySlot := some "abc"
          microSlot := some "x"
          textPrefSlot := some "" }
      = "white" := by
  have h := C4_amended_defaults ⟨true, none⟩
    { emptyServiceState with
      logsSlot := some (.bad)
      creatureSlot := some (.ok (.num 3))
      customizationSlot := some (.ok (.null))
      safetySlot := some "abc"
      microSlot := some "x"
      textPrefSlot := some "" } rfl
  refine ⟨h.1 (Or.inr (Or.inl rfl)), ?_, ?_, ?_, ?_, ?_⟩
  · refine h.2.1 (Or.inr (Or.inr ⟨.num 3, rfl, ?_⟩))
    rintro ⟨b, s, hb, hs2, hcond⟩
    cases hb
    simp [typeofNumber] at hcond
  · refine h.2.2.1 (Or.inr (Or.inr ⟨.null, rfl, ?_⟩))
    rintro ⟨n, c, b, hn, -⟩
    exact Option.noConfusion hn
  · exact h.2.2.2.1 (Or.inr ⟨"abc", rfl, rfl⟩)
  · exact h.2.2.2.2.1 (Or.inr ⟨"x", rfl, rfl⟩)
  · exact h.2.2.2.2.2 (Or.inr rfl)

/-- C9 counterexample: the corrupt stored content "-5" makes
`loadSafetyScore` return the negative integer `-5`. -/
theorem C9_counterexample :
    loadSafetyScore ⟨true, none⟩ { emptyServiceState with safetySlot := some "-5" }
      = -5 ∧ (-5 : Int) < 0 :=
  ⟨rfl, by decide⟩

/-- C9 (amended): `loadSafetyScore` defaults to `0` when the content is
missing or does not parse as a number, and returns exactly — hence
non-negative — every non-negative score written by `saveSafetyScore`;
but arbitrary corrupt content (such as "-5") can make it return a
negative integer. -/
theorem C9_amended (env : StorageEnv) (st : ServiceState) (hp : env.probeOk = true) :
    (st.safetySlot = none → loadSafetyScore env st = 0) ∧
    (∀ s, st.safetySlot = some s → parseIntTS s = none → loadSafetyScore env st = 0) ∧
    (∀ n : Int, 0 ≤ n → env.writeErr = none →
      loadSafetyScore env (saveSafetyScore env n st).2 = n ∧
      0 ≤ loadSafetyScore env (saveSafetyScore env n st).2) := by
  obtain ⟨p, w⟩ := env
  subst hp
  refine ⟨?_, ?_, ?_⟩
  · intro h
    unfold loadSafetyScore
    rw [h]
    rfl
  · intro s hs2 hps
    unfold loadSafetyScore
    rw [hs2]
    show (if s = "" then (0 : Int) else
      match parseIntTS s with
      | none => (0 : Int)
      | some m => m) = 0
    by_cases hempty : s = ""
    · rw [if_pos hempty]
    · rw [if_neg hempty, hps]
  · intro n hn hw
    subst hw
    have hload : loadSafetyScore ⟨true, none⟩ (saveSafetyScore ⟨true, none⟩ n st).2
        = n := by
      show (if intToStr n = "" then 0 else
        match parseIntTS (intToStr n) with
        | none => 0
        | some m => m) = n
      rw [if_neg (intToStr_ne_empty n), parseIntTS_intToStr n]
    exact ⟨hload, by rw [hload]; exact hn⟩

/-- Witness for C9 (amended): corrupt content defaults to 0 and a saved
score of 7 loads back as 7. -/
theorem C9_amended_witness :
    loadSafetyScore ⟨true, none⟩ { emptyServiceState with safetySlot := some "abc" }
      = 0 ∧
    loadSafetyScore ⟨true, none⟩
      (saveSafetyScore ⟨true, none⟩ 7
        { emptyServiceState with safetySlot := some "abc" }).2 = 7 :=
  ⟨(C9_amended ⟨true, none⟩ { emptyServiceState with safetySlot := some "abc" }
      rfl).2.1 "abc" rfl rfl,
   ((C9_amended ⟨true, none⟩ { emptyServiceState with safetySlot := some "abc" }
      rfl).2.2 7 (by decide) rfl).1⟩

end EmoChild
